import Mathlib

/-!
# MarkMirror energy-telemetry pipeline: a shallow embedding

This file embeds the core of `src/server.js` (the Wall Dashboard Server) in
Lean 4 and proves/refutes the specification claims about it.

Conventions of the embedding:
* JavaScript numbers are modelled as rationals (`ℚ`) where fractional values
  flow, and as integers (`ℤ`) where the code has already applied
  `Math.round`.
* `Math.round x` is `⌊x + 1/2⌋` (`jsRound`), matching JS round-half-up
  semantics on the exact values.
* `Number.prototype.toFixed(1)` on non-negative values is `toFixed1`,
  producing the decimal string.
* SQLite tables are association lists; `INSERT OR REPLACE` removes any row
  with the same primary key and prepends the new row.
* Mutable server state is threaded explicitly; network fetch results are
  parameters (`Option`); a failing durable write is a boolean parameter and
  the `try/catch` around it is an `if`.
-/

namespace MarkMirror

/-- JS `Math.round`: round half towards +∞ (`Math.round(x) = ⌊x + 0.5⌋`). -/
def jsRound (q : ℚ) : ℤ := ⌊q + 1/2⌋

/-- JS `Math.max(0, Math.min(100, x))` as used to clamp percentages. -/
def clamp0100 (x : ℤ) : ℤ := max 0 (min 100 x)

/-- JS `Array.prototype.slice(-n)`: the last `n` elements (whole list when
shorter). Used for `alerts.slice(-100)` and `analytics.slice(-720)`. -/
def sliceLast {α : Type} (n : ℕ) (l : List α) : List α :=
  l.drop (l.length - n)

/-- Source `server.js` lines 1080–1089: instantaneous self-powered percentage.
`loadPower` and `gridPower` are the already-rounded integer watt values.
Initialised to `0`; when `loadPower > 0`, `gridSupplied = Math.max(0, gridPower)`
and the percentage is rounded then clamped to `[0, 100]`. -/
def selfPoweredPercent (loadPower gridPower : ℤ) : ℤ :=
  if loadPower > 0 then
    let gridSupplied : ℤ := max 0 gridPower
    clamp0100 (jsRound (((loadPower - gridSupplied : ℤ) : ℚ) / (loadPower : ℚ) * 100))
  else 0

/-- Source `server.js` lines 1092–1098: battery status dead-band on the rounded
instantaneous battery power. -/
def batteryStatusOf (batteryPower : ℤ) : String :=
  if batteryPower > 10 then "discharging"
  else if batteryPower < -10 then "charging"
  else "standby"

/-- Source `server.js` lines 1117–1120: per-channel day-to-date delta,
`Math.max(0, cumulative_now - baseline_channel)`. -/
def dayDelta (base cum : ℚ) : ℚ := max 0 (cum - base)

/-- The per-channel day-deltas over a same-date sequence of cumulative
readings: the baseline is fixed (first poll of the date), each reading is
turned into `dayDelta base`. -/
def dayDeltaSeq (base : ℚ) (cums : List ℚ) : List ℚ :=
  cums.map (dayDelta base)

/-- JS `(q).toFixed(1)` for non-negative `q` (the only values it is applied
to here: clamped day-deltas and cumulative meter counters, divided by 1e6).
JS picks the integer `n` with `n/10` closest to `q`, ties to the larger `n`,
then prints `n` with one decimal: that is round-half-up of `10*q`. -/
def toFixed1 (q : ℚ) : String :=
  let n : ℕ := (jsRound (q * 10)).toNat
  toString (n / 10) ++ "." ++ toString (n % 10)

/-- A dynamically-typed JS value slot: kWh fields of `dailyBreakdown` are
initialised to the number `0` and overwritten with `toFixed(1)` strings. -/
inductive JSVal : Type where
  | num : ℚ → JSVal
  | str : String → JSVal
deriving DecidableEq

/-- The `dailyBreakdown` object (`server.js` line 1123). -/
structure DailyBreakdown where
  solarPct : ℤ
  batteryPct : ℤ
  gridPct : ℤ
  solarKwh : JSVal
  batteryKwh : JSVal
  gridKwh : JSVal
  loadKwh : JSVal
deriving DecidableEq

/-- Source `server.js` lines 1122–1134: from the four day-deltas and the
instantaneous self-powered percent, compute `dailyBreakdown` and
`dailySelfPowered`. When `dayLoad > 0` the percentages are
`Math.round(channel / dayLoad * 100)`, the kWh fields are
`(channel / 1e6).toFixed(1)` strings, and `dailySelfPowered` is the clamped
rounded `(daySolar + dayBattery) / dayLoad * 100`; otherwise the breakdown
keeps its all-zero initialiser and `dailySelfPowered` stays the
instantaneous value. -/
def dailyMetrics (daySolar dayBattery dayGrid dayLoad : ℚ) (selfPct : ℤ) :
    DailyBreakdown × ℤ :=
  if dayLoad > 0 then
    ({ solarPct := jsRound (daySolar / dayLoad * 100)
       batteryPct := jsRound (dayBattery / dayLoad * 100)
       gridPct := jsRound (dayGrid / dayLoad * 100)
       solarKwh := .str (toFixed1 (daySolar / 1000000))
       batteryKwh := .str (toFixed1 (dayBattery / 1000000))
       gridKwh := .str (toFixed1 (dayGrid / 1000000))
       loadKwh := .str (toFixed1 (dayLoad / 1000000)) },
     clamp0100 (jsRound ((daySolar + dayBattery) / dayLoad * 100)))
  else
    ({ solarPct := 0, batteryPct := 0, gridPct := 0
       solarKwh := .num 0, batteryKwh := .num 0, gridKwh := .num 0
       loadKwh := .num 0 },
     selfPct)

/-- One row of the `daily_baselines` SQLite table (`server.js` lines 80–88);
`date` is the primary key and is kept as the association-list key. -/
structure Baseline where
  solar_exported_wh : ℚ
  battery_exported_wh : ℚ
  battery_imported_wh : ℚ
  grid_imported_wh : ℚ
  grid_exported_wh : ℚ
  load_imported_wh : ℚ
deriving DecidableEq

/-- The six cumulative energy counters read from the gateway aggregates
(`server.js` lines 1101–1106). -/
structure CumulativeCounters where
  cumSolar : ℚ
  cumBatteryOut : ℚ
  cumBatteryIn : ℚ
  cumGridIn : ℚ
  cumGridOut : ℚ
  cumLoad : ℚ
deriving DecidableEq

/-- The baseline row built from the current counters, as passed to
`insertBaseline.run(todayKey, cumSolar, cumBatteryOut, cumBatteryIn,
cumGridIn, cumGridOut, cumLoad)` (`server.js` line 1112). -/
def baselineOfCounters (c : CumulativeCounters) : Baseline :=
  { solar_exported_wh := c.cumSolar
    battery_exported_wh := c.cumBatteryOut
    battery_imported_wh := c.cumBatteryIn
    grid_imported_wh := c.cumGridIn
    grid_exported_wh := c.cumGridOut
    load_imported_wh := c.cumLoad }

/-- The `daily_baselines` table: association list keyed by the `date`
primary key. -/
abbrev BaselineTable : Type := List (String × Baseline)

/-- The number of `daily_baselines` rows carrying a given date key (the
`date` column is the primary key, so the table invariant is that this is
at most 1). -/
def countRows (date : String) (tbl : BaselineTable) : ℕ :=
  List.countP (fun row => row.1 == date) tbl

/-- Statement `INSERT OR REPLACE INTO daily_baselines` (`server.js` line 94): SQLite
deletes any row conflicting on the `date` primary key, then inserts the new
row. Row order is irrelevant to `SELECT ... WHERE date = ?`. -/
def insertBaselineRow (date : String) (b : Baseline) (tbl : BaselineTable) :
    BaselineTable :=
  (date, b) :: List.filter (fun row => row.1 != date) tbl

/-- Statement `SELECT * FROM daily_baselines WHERE date = ?` (`server.js` line 95). -/
def getBaselineRow (date : String) (tbl : BaselineTable) : Option Baseline :=
  List.lookup date tbl

/-- Source `server.js` lines 1109–1115: the baseline step of a poll. Look up
the row for today; if absent, insert the current counters as the baseline and
re-read the row (total in the model: `getD` supplies the just-inserted row,
which the lookup provably returns). -/
def baselineStep (todayKey : String) (c : CumulativeCounters)
    (tbl : BaselineTable) : BaselineTable × Baseline :=
  match getBaselineRow todayKey tbl with
  | some b => (tbl, b)
  | none =>
    let tbl2 := insertBaselineRow todayKey (baselineOfCounters c) tbl
    (tbl2, (getBaselineRow todayKey tbl2).getD (baselineOfCounters c))

/-- The four day-to-date deltas (`server.js` lines 1117–1120). The source
guards each baseline field with `|| 0`; model fields are total rationals so
the guard is the identity. -/
structure DayDeltas where
  daySolar : ℚ
  dayBattery : ℚ
  dayGrid : ℚ
  dayLoad : ℚ
deriving DecidableEq

/-- Source `server.js` lines 1117–1120 applied to a baseline row and the current
counters. -/
def dayDeltasOf (b : Baseline) (c : CumulativeCounters) : DayDeltas :=
  { daySolar := dayDelta b.solar_exported_wh c.cumSolar
    dayBattery := dayDelta b.battery_exported_wh c.cumBatteryOut
    dayGrid := dayDelta b.grid_imported_wh c.cumGridIn
    dayLoad := dayDelta b.load_imported_wh c.cumLoad }

/-- One alert object (`server.js` lines 224–231 and the data model of
`alerts.json`). -/
structure Alert where
  id : String
  type : String
  severity : String
  title : String
  message : String
  timestamp : String
deriving DecidableEq

/-- The `settings.alerts` thresholds (`server.js` lines 140–147). -/
structure AlertSettings where
  batteryLow : ℚ
  batteryHigh : ℚ
  gridDown : Bool
  highLoad : ℚ
  highTemp : ℚ
  lowTemp : ℚ
deriving DecidableEq

/-- The battery-low candidate (`server.js` lines 223–232). -/
def batteryLowAlert (soe : ℚ) (s : AlertSettings) (now : String) : Alert :=
  { id := "battery-low", type := "warning", severity := "high"
    title := "Battery Low"
    message := "Battery at " ++ toString soe ++ "% (threshold: " ++
      toString s.batteryLow ++ "%)"
    timestamp := now }

/-- The battery-high candidate (`server.js` lines 234–243). -/
def batteryHighAlert (soe : ℚ) (s : AlertSettings) (now : String) : Alert :=
  { id := "battery-high", type := "info", severity := "low"
    title := "Battery Full"
    message := "Battery at " ++ toString soe ++ "% (threshold: " ++
      toString s.batteryHigh ++ "%)"
    timestamp := now }

/-- The grid-down candidate (`server.js` lines 246–255). -/
def gridDownAlert (now : String) : Alert :=
  { id := "grid-down", type := "error", severity := "critical"
    title := "Grid Down"
    message := "Grid power is off - running on battery/solar only"
    timestamp := now }

/-- The high-load candidate (`server.js` lines 258–267). -/
def highLoadAlert (loadPower : ℤ) (s : AlertSettings) (now : String) : Alert :=
  { id := "high-load", type := "warning", severity := "medium"
    title := "High Load"
    message := "Load at " ++ toString loadPower ++ "W (threshold: " ++
      toString s.highLoad ++ "W)"
    timestamp := now }

/-- The high-temp candidate (`server.js` lines 271–280). -/
def highTempAlert (t : ℤ) (s : AlertSettings) (now : String) : Alert :=
  { id := "high-temp", type := "warning", severity := "high"
    title := "High Temperature"
    message := "Inside temp at " ++ toString t ++ "°F (threshold: " ++
      toString s.highTemp ++ "°F)"
    timestamp := now }

/-- The low-temp candidate (`server.js` lines 282–291). -/
def lowTempAlert (t : ℤ) (s : AlertSettings) (now : String) : Alert :=
  { id := "low-temp", type := "warning", severity := "medium"
    title := "Low Temperature"
    message := "Inside temp at " ++ toString t ++ "°F (threshold: " ++
      toString s.lowTemp ++ "°F)"
    timestamp := now }

/-- The candidate (`newAlerts`) list built by `checkAlerts`
(`server.js` lines 218–292), in source order: battery-low, battery-high,
grid-down, high-load, then — only when a temperature reading is cached —
high-temp and low-temp. `soe` is `powerwallData.battery.soe`, `gridPower`
and `loadPower` the rounded instantaneous powers, `temps` the cached
`inside.temp` (already rounded to an integer by the temps route), `now` the
ISO timestamp string. -/
def candidateAlerts (soe : ℚ) (gridPower loadPower : ℤ) (temps : Option ℤ)
    (s : AlertSettings) (now : String) : List Alert :=
  (if soe ≤ s.batteryLow then [batteryLowAlert soe s now] else []) ++
  (if soe ≥ s.batteryHigh then [batteryHighAlert soe s now] else []) ++
  (if s.gridDown ∧ gridPower ≤ 0 then [gridDownAlert now] else []) ++
  (if (loadPower : ℚ) ≥ s.highLoad then [highLoadAlert loadPower s now]
   else []) ++
  (match temps with
   | some t =>
     (if (t : ℚ) ≥ s.highTemp then [highTempAlert t s now] else []) ++
     (if (t : ℚ) ≤ s.lowTemp then [lowTempAlert t s now] else [])
   | none => [])

/-- Source `server.js` lines 294–300: `newAlerts.forEach(alert => if
(!alerts.find(a => a.id === alert.id)) { alerts.push(alert);
broadcastUpdate(...) })`. Returns the updated persistent list and the
alerts broadcast during the pass, in order. -/
def addNewAlerts (newAlerts alerts0 : List Alert) :
    List Alert × List Alert :=
  newAlerts.foldl
    (fun acc a =>
      if (List.find? (fun b => b.id == a.id) acc.1).isSome then acc
      else (acc.1 ++ [a], acc.2 ++ [a]))
    (alerts0, [])

/-- Function `checkAlerts` (`server.js` lines 218–307): build candidates, append the
non-duplicates (broadcasting each), then trim to the last 100
(`alerts.slice(-100)`) and persist. Result: (persisted alert list,
broadcast alert events). The source returns `newAlerts`, which no caller
uses. -/
def checkAlerts (soe : ℚ) (gridPower loadPower : ℤ) (temps : Option ℤ)
    (s : AlertSettings) (now : String) (alerts0 : List Alert) :
    List Alert × List Alert :=
  let step := addNewAlerts (candidateAlerts soe gridPower loadPower temps s now) alerts0
  (sliceLast 100 step.1, step.2)

/-- Route `DELETE /api/alerts/:id` (`server.js` lines 408–412):
`alerts = alerts.filter(a => a.id !== req.params.id)`. -/
def clearAlert (id : String) (alerts0 : List Alert) : List Alert :=
  List.filter (fun a => a.id != id) alerts0

/-- A live-view (SSE) subscriber for the broadcast model: `writeOk` is
whether `client.write` succeeds (false = the write throws, e.g. the client
disconnected); `name` identifies the connection. -/
structure Client where
  name : String
  writeOk : Bool
deriving DecidableEq

/-- The body of `sseClients.forEach((client, index) => { try {
client.write(...) } catch { sseClients.splice(index, 1) } })`
(`server.js` lines 204–212), modelled at JS `Array.prototype.forEach`
precision: the index `k` runs from 0 to the length *captured before the
first callback*; at each `k` the callback runs only if `k` is still a valid
index of the (mutated) array; a failing write splices out the element at
the current position `k`. `fuel` is the number of indices left
(`len - k`). Returns the array after the pass and the names delivered to,
in order. -/
def bcastLoop (fuel : ℕ) (k : ℕ) (arr : List Client) :
    List Client × List String :=
  match fuel with
  | 0 => (arr, [])
  | fuel' + 1 =>
    if h : k < arr.length then
      let c := arr.get ⟨k, h⟩
      if c.writeOk then
        let r := bcastLoop fuel' (k + 1) arr
        (r.1, c.name :: r.2)
      else
        bcastLoop fuel' (k + 1) (arr.eraseIdx k)
    else
      bcastLoop fuel' (k + 1) arr

/-- Function `broadcastUpdate` (`server.js` lines 204–212) as it acts on the
subscriber array: run the forEach pass over the initial length. -/
def broadcastUpdate (clients : List Client) : List Client × List String :=
  bcastLoop clients.length 0 clients

/-- One point of the in-memory `history` array (`server.js` lines
1221–1228): the rounded instantaneous powers, the state of energy, and the
timestamp (kept as milliseconds rather than its ISO rendering). -/
structure HistPoint where
  timestamp : ℤ
  grid : ℤ
  battery : ℤ
  solar : ℤ
  load : ℤ
  soe : ℚ
deriving DecidableEq

/-- Per-channel statistics of the hourly grid entry (`server.js` lines
331–336). -/
structure GridStats where
  avg : ℤ
  max : ℤ
  min : ℤ
  samples : ℕ
deriving DecidableEq

/-- Per-channel statistics with the Riemann-sum energy total (`server.js`
lines 337–348, solar and load). -/
structure EnergyStats where
  avg : ℤ
  max : ℤ
  min : ℤ
  total : ℚ
deriving DecidableEq

/-- State-of-energy statistics (`server.js` lines 349–353). -/
structure SoeStats where
  avgSoe : ℤ
  maxSoe : ℚ
  minSoe : ℚ
deriving DecidableEq

/-- One hourly analytics entry (`server.js` lines 329–354); `hour` is the
poll instant (milliseconds, standing for `now.toISOString()`). -/
structure AnalyticsEntry where
  hour : ℤ
  grid : GridStats
  solar : EnergyStats
  load : EnergyStats
  battery : SoeStats
deriving DecidableEq

/-- Sum of a list of integers (the `arr.reduce((a, b) => a + b, 0)` inside
`avg`). -/
def sumI (l : List ℤ) : ℤ := l.foldl (· + ·) 0

/-- Sum of a list of rationals. -/
def sumQ (l : List ℚ) : ℚ := l.foldl (· + ·) 0

/-- JS `Math.max(...arr)` on a non-empty array given as head and tail. -/
def foldMax {α : Type} [LinearOrder α] (x : α) (xs : List α) : α :=
  xs.foldl max x

/-- JS `Math.min(...arr)` on a non-empty array given as head and tail. -/
def foldMin {α : Type} [LinearOrder α] (x : α) (xs : List α) : α :=
  xs.foldl min x

/-- The `(now - 1h, now]` sample window filter of `calculateHourlyAnalytics`
(`server.js` lines 314–320): `timestamp > hourAgo && timestamp <= now`. -/
def hourWindow (nowMs : ℤ) (history : List HistPoint) : List HistPoint :=
  history.filter
    (fun h => decide (nowMs - 3600000 < h.timestamp) && decide (h.timestamp ≤ nowMs))

/-- Function `calculateHourlyAnalytics` (`server.js` lines 313–357): `null` on an
empty window; otherwise per-channel rounded averages, maxima, minima,
sample count, Riemann-sum energy totals `Σ (power_w / 3600 / 1000)`, and
SoE statistics, all over exactly the samples of the window. -/
def calculateHourlyAnalytics (nowMs : ℤ) (history : List HistPoint) :
    Option AnalyticsEntry :=
  match hourWindow nowMs history with
  | [] => none
  | x :: xs =>
    let l := x :: xs
    some
      { hour := nowMs
        grid :=
          { avg := jsRound ((sumI (l.map (·.grid)) : ℚ) / (l.length : ℚ))
            max := foldMax x.grid (xs.map (·.grid))
            min := foldMin x.grid (xs.map (·.grid))
            samples := l.length }
        solar :=
          { avg := jsRound ((sumI (l.map (·.solar)) : ℚ) / (l.length : ℚ))
            max := foldMax x.solar (xs.map (·.solar))
            min := foldMin x.solar (xs.map (·.solar))
            total := l.foldl (fun s h => s + ((h.solar : ℚ) / 3600 / 1000)) 0 }
        load :=
          { avg := jsRound ((sumI (l.map (·.load)) : ℚ) / (l.length : ℚ))
            max := foldMax x.load (xs.map (·.load))
            min := foldMin x.load (xs.map (·.load))
            total := l.foldl (fun s h => s + ((h.load : ℚ) / 3600 / 1000)) 0 }
        battery :=
          { avgSoe := jsRound (sumQ (l.map (·.soe)) / (l.length : ℚ))
            maxSoe := foldMax x.soe (xs.map (·.soe))
            minSoe := foldMin x.soe (xs.map (·.soe)) } }

/-- The reading (`powerwallData`) fields read by the downstream pipeline:
history push, SQLite sample insert, alert evaluation and broadcast.
The source object carries further display-only fields (voltages, system
status, daily breakdown) not read by these paths. -/
structure PowerwallData where
  timestamp : ℤ
  solarPower : ℤ
  batteryPower : ℤ
  gridPower : ℤ
  loadPower : ℤ
  soe : ℚ
  batteryStatus : String
deriving DecidableEq

/-- One `power_samples` row (`server.js` lines 68–77, written at 1236 and
1284). -/
structure Sample where
  ts : ℤ
  solar_w : ℤ
  battery_w : ℤ
  grid_w : ℤ
  load_w : ℤ
  battery_soe : ℚ
  battery_status : String
deriving DecidableEq

/-- An SSE event handed to `broadcastUpdate` (`{type, data}`). -/
inductive Event : Type where
  | powerwall : PowerwallData → Event
  | alert : Alert → Event
  | analytics : AnalyticsEntry → Event
deriving DecidableEq

/-- The mutable server state the energy pipeline reads and writes:
`cachedData.powerwall` / `cachedData.lastUpdate.powerwall`, the `history`
array, the SQLite `power_samples` table, the `alerts` and `analytics`
lists, the cached inside temperature and the alert settings. -/
structure ServerState where
  cachedPowerwall : Option PowerwallData
  lastUpdatePowerwall : ℤ
  history : List HistPoint
  samples : List Sample
  alerts : List Alert
  analytics : List AnalyticsEntry
  temps : Option ℤ
  settings : AlertSettings
deriving DecidableEq

/-- The history point pushed for a reading (`server.js` lines 1221–1228 /
1271–1278). -/
def histPointOf (pw : PowerwallData) : HistPoint :=
  { timestamp := pw.timestamp, grid := pw.gridPower
    battery := pw.batteryPower, solar := pw.solarPower
    load := pw.loadPower, soe := pw.soe }

/-- The SQLite row inserted for a reading (`server.js` lines 1236 / 1284). -/
def sampleOf (pw : PowerwallData) : Sample :=
  { ts := pw.timestamp, solar_w := pw.solarPower
    battery_w := pw.batteryPower, grid_w := pw.gridPower
    load_w := pw.loadPower, battery_soe := pw.soe
    battery_status := pw.batteryStatus }

/-- The 24-hour history trim (`server.js` lines 1230–1231 / 1279–1280):
keep points with `getTime() > Date.now() - 24h`. -/
def trimHistory (nowMs : ℤ) (h : List HistPoint) : List HistPoint :=
  h.filter (fun p => decide (nowMs - 86400000 < p.timestamp))

/-- The shared pipeline run after a successful fetch (`server.js` lines
1221–1243 and 1271–1288): push the history point and trim, attempt the
SQLite sample insert inside `try/catch` (`sampleWriteFails` true models the
write throwing: the table is unchanged and the failure is swallowed), run
`checkAlerts`, then broadcast the powerwall event. Returns the new state
and the events handed to `broadcastUpdate`, in order. -/
def pipelineAfterFetch (nowMs : ℤ) (pw : PowerwallData)
    (sampleWriteFails : Bool) (st : ServerState) : ServerState × List Event :=
  let hist2 := trimHistory nowMs (st.history ++ [histPointOf pw])
  let samples2 := if sampleWriteFails then st.samples else st.samples ++ [sampleOf pw]
  let ca := checkAlerts pw.soe pw.gridPower pw.loadPower st.temps st.settings
    (toString nowMs) st.alerts
  ({ st with history := hist2, samples := samples2, alerts := ca.1 },
   ca.2.map Event.alert ++ [Event.powerwall pw])

/-- The response of `GET /api/powerwall`. -/
inductive ApiResponse : Type where
  | json : PowerwallData → ApiResponse
  | error500 : ApiResponse
deriving DecidableEq

/-- The freshness check `cachedData.powerwall && now -
cachedData.lastUpdate.powerwall < 15000` (`server.js` line 1209). -/
def cacheFresh (nowMs : ℤ) (st : ServerState) : Option PowerwallData :=
  match st.cachedPowerwall with
  | some pw => if nowMs - st.lastUpdatePowerwall < 15000 then some pw else none
  | none => none

/-- Route `GET /api/powerwall` (`server.js` lines 1206–1250). `fetchResult` is
the outcome of `fetchPowerwallData()` (`none` = transient fetch failure,
the function returned `null`); it is only consulted when the cache is
stale. On a fetch failure the route answers 500 and touches nothing; on
success it refreshes the cache and runs the shared pipeline. -/
def apiPowerwallGet (nowMs : ℤ) (fetchResult : Option PowerwallData)
    (sampleWriteFails : Bool) (st : ServerState) :
    ServerState × ApiResponse × List Event :=
  match cacheFresh nowMs st with
  | some pw => (st, ApiResponse.json pw, [])
  | none =>
    match fetchResult with
    | none => (st, ApiResponse.error500, [])
    | some pw =>
      let st1 := { st with cachedPowerwall := some pw, lastUpdatePowerwall := nowMs }
      let r := pipelineAfterFetch nowMs pw sampleWriteFails st1
      (r.1, ApiResponse.json pw, r.2)

/-- The 10-second SSE poll tick (`server.js` lines 1266–1291): nothing at
all happens without subscribers; with subscribers, a failed fetch (`data`
falsy) yields no update, a successful one refreshes the cache and runs the
shared pipeline. -/
def ssePollTick (nowMs : ℤ) (subscriberCount : ℕ)
    (fetchResult : Option PowerwallData) (sampleWriteFails : Bool)
    (st : ServerState) : ServerState × List Event :=
  if subscriberCount > 0 then
    match fetchResult with
    | none => (st, [])
    | some pw =>
      let st1 := { st with cachedPowerwall := some pw }
      pipelineAfterFetch nowMs pw sampleWriteFails st1
  else (st, [])

/-- The hourly analytics timer body (`server.js` lines 360–370): a `null`
roll-up does nothing; otherwise the entry is appended, the list trimmed to
the last 720, and the entry broadcast. -/
def analyticsTick (nowMs : ℤ) (history : List HistPoint)
    (analytics0 : List AnalyticsEntry) : List AnalyticsEntry × List Event :=
  match calculateHourlyAnalytics nowMs history with
  | none => (analytics0, [])
  | some e => (sliceLast 720 (analytics0 ++ [e]), [Event.analytics e])

end MarkMirror

namespace MarkMirror

/-! ## General lemmas about the embedding -/

lemma clamp0100_nonneg (x : ℤ) : 0 ≤ clamp0100 x := le_max_left 0 _

lemma clamp0100_le_100 (x : ℤ) : clamp0100 x ≤ 100 :=
  max_le (by norm_num) (min_le_left 100 x)

lemma dayDelta_nonneg (base cum : ℚ) : 0 ≤ dayDelta base cum :=
  le_max_left 0 _

lemma dayDelta_mono (base : ℚ) {a b : ℚ} (h : a ≤ b) :
    dayDelta base a ≤ dayDelta base b :=
  max_le_max le_rfl (sub_le_sub_right h base)

/-! ## C10: battery-status dead-band -/

/-- C10: battery status classification is a dead-band on the rounded
instantaneous battery power: strictly above +10 W is "discharging",
strictly below −10 W is "charging", and everything in [−10, +10]
(including 0 and exactly ±10) is "standby". -/
theorem battery_status_deadband (p : ℤ) :
    (10 < p → batteryStatusOf p = "discharging") ∧
    (p < -10 → batteryStatusOf p = "charging") ∧
    (-10 ≤ p → p ≤ 10 → batteryStatusOf p = "standby") := by
  unfold batteryStatusOf
  refine ⟨fun h => ?_, fun h => ?_, fun h1 h2 => ?_⟩
  · rw [if_pos h]
  · rw [if_neg (by omega), if_pos h]
  · rw [if_neg (by omega), if_neg (by omega)]

/-- Witness for C10 at the boundary and example inputs. -/
theorem battery_status_deadband_witness :
    batteryStatusOf 11 = "discharging" ∧
    batteryStatusOf (-11) = "charging" ∧
    batteryStatusOf 10 = "standby" ∧
    batteryStatusOf (-10) = "standby" ∧
    batteryStatusOf 0 = "standby" :=
  ⟨(battery_status_deadband 11).1 (by norm_num),
   (battery_status_deadband (-11)).2.1 (by norm_num),
   (battery_status_deadband 10).2.2 (by norm_num) (by norm_num),
   (battery_status_deadband (-10)).2.2 (by norm_num) (by norm_num),
   (battery_status_deadband 0).2.2 (by norm_num) (by norm_num)⟩

/-! ## C4: instantaneous self-powered percentage -/

/-- C4: the instantaneous self-powered percentage is 0 when
`loadPower ≤ 0`, otherwise `clamp(round((loadPower − max(0, gridPower)) /
loadPower · 100), 0, 100)`; it always lies in [0, 100]; grid 980 W with
load 990 W gives 1; a negative (exporting) grid power with positive load
gives 100. -/
theorem selfPowered_spec (loadPower gridPower : ℤ) :
    (loadPower ≤ 0 → selfPoweredPercent loadPower gridPower = 0) ∧
    (0 < loadPower → selfPoweredPercent loadPower gridPower =
      clamp0100 (jsRound (((loadPower - max 0 gridPower : ℤ) : ℚ) /
        (loadPower : ℚ) * 100))) ∧
    0 ≤ selfPoweredPercent loadPower gridPower ∧
    selfPoweredPercent loadPower gridPower ≤ 100 ∧
    (loadPower = 990 → gridPower = 980 →
      selfPoweredPercent loadPower gridPower = 1) ∧
    (0 < loadPower → gridPower < 0 →
      selfPoweredPercent loadPower gridPower = 100) := by
  refine ⟨fun h => ?_, fun h => ?_, ?_, ?_, fun h1 h2 => ?_, fun h1 h2 => ?_⟩
  · rw [selfPoweredPercent, if_neg (by omega)]
  · rw [selfPoweredPercent, if_pos h]
  · rw [selfPoweredPercent]
    split
    · exact clamp0100_nonneg _
    · exact le_rfl
  · rw [selfPoweredPercent]
    split
    · exact clamp0100_le_100 _
    · norm_num
  · subst h1; subst h2
    norm_num [selfPoweredPercent, clamp0100, jsRound]
  · have hg : max 0 gridPower = 0 := max_eq_left h2.le
    have hl : (loadPower : ℚ) ≠ 0 := by exact_mod_cast h1.ne'
    rw [selfPoweredPercent, if_pos h1]
    show clamp0100 (jsRound (((loadPower - max 0 gridPower : ℤ) : ℚ) /
      (loadPower : ℚ) * 100)) = 100
    rw [hg]
    have : ((loadPower - 0 : ℤ) : ℚ) / (loadPower : ℚ) * 100 = 100 := by
      field_simp
    rw [this]
    norm_num [clamp0100, jsRound]

/-- Witness for C4 at load 990 W, grid 980 W and at an exporting grid. -/
theorem selfPowered_spec_witness :
    selfPoweredPercent 990 980 = 1 ∧
    selfPoweredPercent 990 (-20) = 100 ∧
    selfPoweredPercent (-5) 300 = 0 ∧
    0 ≤ selfPoweredPercent 990 980 ∧ selfPoweredPercent 990 980 ≤ 100 :=
  ⟨(selfPowered_spec 990 980).2.2.2.2.1 rfl rfl,
   (selfPowered_spec 990 (-20)).2.2.2.2.2 (by norm_num) (by norm_num),
   (selfPowered_spec (-5) 300).1 (by norm_num),
   (selfPowered_spec 990 980).2.2.1,
   (selfPowered_spec 990 980).2.2.2.1⟩

/-! ## C1: day-deltas within one date -/

/-- C1 as stated is false: a momentary downward glitch of a cumulative
counter does decrease the day-delta. With baseline 100 and same-date
readings 300 then 200 the deltas are 200 then 100 — not monotonically
non-decreasing. -/
theorem dayDelta_monotone_counterexample :
    dayDeltaSeq 100 [300, 200] = [200, 100] ∧
    ¬ List.Chain' (· ≤ ·) (dayDeltaSeq 100 [300, 200]) := by
  have h : dayDeltaSeq 100 [300, 200] = [200, 100] := by
    simp only [dayDeltaSeq, List.map_cons, List.map_nil, dayDelta]
    norm_num
  refine ⟨h, ?_⟩
  rw [h]
  simp only [List.chain'_cons, List.chain'_singleton, and_true]
  norm_num

/-- C1 amended: each day-delta is never negative (the clamp), and the
day-delta sequence is monotonically non-decreasing whenever the
cumulative-counter readings themselves are non-decreasing within the date;
a downward counter glitch can lower the delta — only negativity is
prevented. -/
theorem dayDelta_nonneg_and_monotone (base : ℚ) (cums : List ℚ) :
    (∀ d ∈ dayDeltaSeq base cums, 0 ≤ d) ∧
    (List.Chain' (· ≤ ·) cums →
      List.Chain' (· ≤ ·) (dayDeltaSeq base cums)) := by
  constructor
  · intro d hd
    rw [dayDeltaSeq, List.mem_map] at hd
    obtain ⟨c, _, rfl⟩ := hd
    exact dayDelta_nonneg base c
  · intro h
    rw [dayDeltaSeq, List.chain'_map]
    exact h.imp fun a b hab => dayDelta_mono base hab

/-! ## C2: baseline insert-if-absent is idempotent -/

/-- C2: starting from a table with no row for the date key, the baseline
step inserts the counters of the first candidate; every later invocation with
any other candidate returns the table and the first row unchanged (also
folded over any sequence of candidates), exactly one row carries the date
key, and the one-row-per-date invariant is preserved for every key. -/
theorem baselineStep_idempotent (k : String) (c1 c2 : CumulativeCounters)
    (tbl : BaselineTable) (habs : getBaselineRow k tbl = none) :
    (baselineStep k c1 tbl).2 = baselineOfCounters c1 ∧
    getBaselineRow k (baselineStep k c1 tbl).1 =
      some (baselineOfCounters c1) ∧
    baselineStep k c2 (baselineStep k c1 tbl).1 = baselineStep k c1 tbl ∧
    (∀ cs : List CumulativeCounters,
      cs.foldl (fun s c => (baselineStep k c s).1)
        (baselineStep k c1 tbl).1 = (baselineStep k c1 tbl).1) ∧
    countRows k (baselineStep k c1 tbl).1 = 1 ∧
    (∀ k', countRows k' tbl ≤ 1 →
      countRows k' (baselineStep k c1 tbl).1 ≤ 1) := by
  have h1 : baselineStep k c1 tbl =
      (insertBaselineRow k (baselineOfCounters c1) tbl,
       baselineOfCounters c1) := by
    rw [baselineStep, habs]
    simp [getBaselineRow, insertBaselineRow, List.lookup]
  have hget : getBaselineRow k (baselineStep k c1 tbl).1 =
      some (baselineOfCounters c1) := by
    rw [h1]
    simp [getBaselineRow, insertBaselineRow, List.lookup]
  have hstep : ∀ c, baselineStep k c (baselineStep k c1 tbl).1 =
      baselineStep k c1 tbl := by
    intro c
    rw [baselineStep, hget, h1]
  have hfilter0 : ∀ (tbl' : BaselineTable),
      List.countP (fun row => row.1 == k)
        (List.filter (fun row => row.1 != k) tbl') = 0 := by
    intro tbl'
    rw [List.countP_eq_zero]
    intro row hr
    rw [List.mem_filter] at hr
    simpa using hr.2
  refine ⟨by rw [h1], hget, hstep c2, ?_, ?_, ?_⟩
  · intro cs
    induction cs with
    | nil => rfl
    | cons c cs ih =>
      rw [List.foldl_cons]
      rw [show (baselineStep k c (baselineStep k c1 tbl).1).1 =
        (baselineStep k c1 tbl).1 from by rw [hstep c]]
      exact ih
  · rw [h1]
    show List.countP _ ((k, baselineOfCounters c1) ::
      List.filter (fun row => row.1 != k) tbl) = 1
    rw [List.countP_cons]
    simp [hfilter0 tbl]
  · intro k' hk'
    rw [h1]
    show List.countP (fun row => row.1 == k')
      ((k, baselineOfCounters c1) ::
        List.filter (fun row => row.1 != k) tbl) ≤ 1
    rw [List.countP_cons]
    by_cases hkk : k = k'
    · subst hkk
      simp [hfilter0 tbl]
    · have hle : List.countP (fun row => row.1 == k')
          (List.filter (fun row => row.1 != k) tbl) ≤
          List.countP (fun row => row.1 == k') tbl :=
        List.Sublist.countP_le _ (List.filter_sublist tbl)
      rw [countRows] at hk'
      simp only [beq_iff_eq, hkk, if_false]
      omega

/-- Witness for C2 on an empty table and two differing candidates. -/
theorem baselineStep_idempotent_witness :
    getBaselineRow "2026-10-12" ([] : BaselineTable) = none ∧
    (baselineStep "2026-10-12" ⟨1000000, 2000, 3000, 4000, 5000, 2000000⟩
      ([] : BaselineTable)).2 =
      baselineOfCounters ⟨1000000, 2000, 3000, 4000, 5000, 2000000⟩ ∧
    baselineStep "2026-10-12" ⟨1500000, 2500, 3500, 4500, 5500, 2800000⟩
      (baselineStep "2026-10-12" ⟨1000000, 2000, 3000, 4000, 5000, 2000000⟩
        ([] : BaselineTable)).1 =
      baselineStep "2026-10-12" ⟨1000000, 2000, 3000, 4000, 5000, 2000000⟩
        ([] : BaselineTable) ∧
    countRows "2026-10-12"
      (baselineStep "2026-10-12" ⟨1000000, 2000, 3000, 4000, 5000, 2000000⟩
        ([] : BaselineTable)).1 = 1 := by
  have h := baselineStep_idempotent "2026-10-12"
    ⟨1000000, 2000, 3000, 4000, 5000, 2000000⟩
    ⟨1500000, 2500, 3500, 4500, 5500, 2800000⟩ ([] : BaselineTable) rfl
  exact ⟨rfl, h.1, h.2.2.1, h.2.2.2.2.1⟩

/-! ## C3: alert de-duplication -/

lemma sliceLast_append_singleton {α : Type} (n : ℕ) (hn : 0 < n)
    (l : List α) (a : α) :
    sliceLast n (l ++ [a]) = l.drop (l.length + 1 - n) ++ [a] := by
  rw [sliceLast, List.length_append, List.drop_append_eq_append_drop]
  have h0 : l.length + List.length [a] - n - l.length = 0 := by
    simp only [List.length_singleton]
    omega
  rw [h0]
  simp

lemma sliceLast_length_le {α : Type} (n : ℕ) (l : List α) :
    (sliceLast n l).length ≤ n := by
  rw [sliceLast, List.length_drop]
  omega

lemma sliceLast_eq_self {α : Type} {n : ℕ} {l : List α}
    (h : l.length ≤ n) : sliceLast n l = l := by
  rw [sliceLast, Nat.sub_eq_zero_of_le h, List.drop_zero]

@[simp] lemma batteryLowAlert_id (soe : ℚ) (s : AlertSettings)
    (now : String) : (batteryLowAlert soe s now).id = "battery-low" := rfl

/-- Under settings where only the battery-low condition breaches and no
temperature reading is cached, the candidate list is exactly the
battery-low alert. -/
lemma candidates_battery_low_only (soe : ℚ) (gp lp : ℤ) (s : AlertSettings)
    (now : String) (hlow : soe ≤ s.batteryLow) (hhigh : ¬ soe ≥ s.batteryHigh)
    (hgrid : s.gridDown = false) (hload : ¬ (lp : ℚ) ≥ s.highLoad) :
    candidateAlerts soe gp lp none s now = [batteryLowAlert soe s now] := by
  rw [candidateAlerts, if_pos hlow, if_neg hhigh,
    if_neg (by simp [hgrid]), if_neg hload]
  simp

/-- C3: with an alert list holding no battery-low entry, a battery-low
breach appends exactly one battery-low alert and broadcasts it; submitting
the same breach again leaves the list unchanged and broadcasts nothing;
after `clearAlert "battery-low"` no battery-low entry remains and the next
breach re-raises (appends and broadcasts) it. -/
theorem alert_dedup (soe : ℚ) (gp lp : ℤ) (s : AlertSettings)
    (A : List Alert) (now1 now2 now3 : String)
    (hlow : soe ≤ s.batteryLow) (hhigh : ¬ soe ≥ s.batteryHigh)
    (hgrid : s.gridDown = false) (hload : ¬ (lp : ℚ) ≥ s.highLoad)
    (hA : ∀ a ∈ A, a.id ≠ "battery-low") :
    checkAlerts soe gp lp none s now1 A =
      (sliceLast 100 (A ++ [batteryLowAlert soe s now1]),
       [batteryLowAlert soe s now1]) ∧
    List.countP (fun a => a.id == "battery-low")
      (sliceLast 100 (A ++ [batteryLowAlert soe s now1])) = 1 ∧
    checkAlerts soe gp lp none s now2
      (sliceLast 100 (A ++ [batteryLowAlert soe s now1])) =
      (sliceLast 100 (A ++ [batteryLowAlert soe s now1]), []) ∧
    List.countP (fun a => a.id == "battery-low")
      (clearAlert "battery-low"
        (sliceLast 100 (A ++ [batteryLowAlert soe s now1]))) = 0 ∧
    (checkAlerts soe gp lp none s now3
      (clearAlert "battery-low"
        (sliceLast 100 (A ++ [batteryLowAlert soe s now1])))).2 =
      [batteryLowAlert soe s now3] := by
  have hfindA : List.find?
      (fun b => b.id == (batteryLowAlert soe s now1).id) A = none := by
    rw [List.find?_eq_none]
    intro x hx
    simp [hA x hx]
  have hnotexA : ¬ ∃ x ∈ A, x.id = "battery-low" := by
    rintro ⟨x, hx, hid⟩
    exact hA x hx hid
  have hrun1 : checkAlerts soe gp lp none s now1 A =
      (sliceLast 100 (A ++ [batteryLowAlert soe s now1]),
       [batteryLowAlert soe s now1]) := by
    rw [checkAlerts, candidates_battery_low_only soe gp lp s now1 hlow hhigh
      hgrid hload]
    simp [addNewAlerts, hnotexA]
  have hslice : sliceLast 100 (A ++ [batteryLowAlert soe s now1]) =
      A.drop (A.length + 1 - 100) ++ [batteryLowAlert soe s now1] :=
    sliceLast_append_singleton 100 (by norm_num) A _
  have hmem : batteryLowAlert soe s now1 ∈
      sliceLast 100 (A ++ [batteryLowAlert soe s now1]) := by
    rw [hslice]
    exact List.mem_append_right _ (List.mem_singleton_self _)
  have hcount1 : List.countP (fun a => a.id == "battery-low")
      (sliceLast 100 (A ++ [batteryLowAlert soe s now1])) = 1 := by
    rw [hslice, List.countP_append]
    have hz : List.countP (fun a => a.id == "battery-low")
        (A.drop (A.length + 1 - 100)) = 0 := by
      have h0 : List.countP (fun a => a.id == "battery-low") A = 0 := by
        rw [List.countP_eq_zero]
        intro a ha
        simp [hA a ha]
      have := (List.drop_sublist (A.length + 1 - 100) A).countP_le
        (fun a => a.id == "battery-low")
      omega
    rw [hz]
    simp [List.countP_cons]
  have hlen : (sliceLast 100 (A ++ [batteryLowAlert soe s now1])).length
      ≤ 100 := sliceLast_length_le 100 _
  have hfind2 : (List.find?
      (fun b => b.id == (batteryLowAlert soe s now2).id)
      (sliceLast 100 (A ++ [batteryLowAlert soe s now1]))).isSome := by
    rw [List.find?_isSome]
    exact ⟨batteryLowAlert soe s now1, hmem, by simp⟩
  have hrun2 : checkAlerts soe gp lp none s now2
      (sliceLast 100 (A ++ [batteryLowAlert soe s now1])) =
      (sliceLast 100 (A ++ [batteryLowAlert soe s now1]), []) := by
    rw [checkAlerts, candidates_battery_low_only soe gp lp s now2 hlow hhigh
      hgrid hload]
    simp only [addNewAlerts, List.foldl_cons, List.foldl_nil, hfind2,
      if_pos]
    exact congrArg (fun l => (l, ([] : List Alert)))
      (sliceLast_eq_self hlen)
  have hclear : ∀ a ∈ clearAlert "battery-low"
      (sliceLast 100 (A ++ [batteryLowAlert soe s now1])),
      a.id ≠ "battery-low" := by
    intro a ha
    rw [clearAlert, List.mem_filter] at ha
    simpa using ha.2
  have hcount0 : List.countP (fun a => a.id == "battery-low")
      (clearAlert "battery-low"
        (sliceLast 100 (A ++ [batteryLowAlert soe s now1]))) = 0 := by
    rw [List.countP_eq_zero]
    intro a ha
    simp [hclear a ha]
  have hfind3 : List.find?
      (fun b => b.id == (batteryLowAlert soe s now3).id)
      (clearAlert "battery-low"
        (sliceLast 100 (A ++ [batteryLowAlert soe s now1]))) = none := by
    rw [List.find?_eq_none]
    intro x hx
    simp [hclear x hx]
  have hnotex3 : ¬ ∃ x ∈ clearAlert "battery-low"
      (sliceLast 100 (A ++ [batteryLowAlert soe s now1])),
      x.id = "battery-low" := by
    rintro ⟨x, hx, hid⟩
    exact hclear x hx hid
  have hrun3 : (checkAlerts soe gp lp none s now3
      (clearAlert "battery-low"
        (sliceLast 100 (A ++ [batteryLowAlert soe s now1])))).2 =
      [batteryLowAlert soe s now3] := by
    rw [checkAlerts, candidates_battery_low_only soe gp lp s now3 hlow hhigh
      hgrid hload]
    simp [addNewAlerts, hnotex3]
  exact ⟨hrun1, hcount1, hrun2, hcount0, hrun3⟩

/-- Witness for C3 at SOE 15 % against the default thresholds. -/
theorem alert_dedup_witness :
    checkAlerts 15 500 1200 none ⟨20, 95, false, 5000, 85, 50⟩ "t1" [] =
      (sliceLast 100 ([] ++ [batteryLowAlert 15 ⟨20, 95, false, 5000, 85, 50⟩ "t1"]),
       [batteryLowAlert 15 ⟨20, 95, false, 5000, 85, 50⟩ "t1"]) ∧
    checkAlerts 15 500 1200 none ⟨20, 95, false, 5000, 85, 50⟩ "t2"
      (sliceLast 100 ([] ++ [batteryLowAlert 15 ⟨20, 95, false, 5000, 85, 50⟩ "t1"])) =
      (sliceLast 100 ([] ++ [batteryLowAlert 15 ⟨20, 95, false, 5000, 85, 50⟩ "t1"]),
       []) ∧
    (checkAlerts 15 500 1200 none ⟨20, 95, false, 5000, 85, 50⟩ "t3"
      (clearAlert "battery-low"
        (sliceLast 100 ([] ++ [batteryLowAlert 15 ⟨20, 95, false, 5000, 85, 50⟩ "t1"])))).2 =
      [batteryLowAlert 15 ⟨20, 95, false, 5000, 85, 50⟩ "t3"] := by
  have h := alert_dedup 15 500 1200 ⟨20, 95, false, 5000, 85, 50⟩ []
    "t1" "t2" "t3" (by norm_num) (by norm_num) rfl (by norm_num)
    (by intro a ha; cases ha)
  exact ⟨h.1, h.2.2.1, h.2.2.2.2⟩

/-! ## C7: broadcast fan-out delivery -/

/-- C7 fails on the code: `broadcastUpdate` iterates the subscriber array
with `forEach` and removes a failed subscriber with `splice(index, 1)`,
which shifts the remaining elements down so the subscriber right after the
failed one is never visited. With subscribers A (write fails), B, C (both
writes succeed), only C is delivered to — B is skipped although its write
would have succeeded (delivering to [B, C] alone reaches both). The failed
subscriber A is removed and no error escapes, but delivery to B is lost. -/
theorem broadcast_failed_write_skips_next :
    broadcastUpdate [⟨"A", false⟩, ⟨"B", true⟩, ⟨"C", true⟩] =
      ([⟨"B", true⟩, ⟨"C", true⟩], ["C"]) ∧
    "B" ∉ (broadcastUpdate [⟨"A", false⟩, ⟨"B", true⟩, ⟨"C", true⟩]).2 ∧
    (broadcastUpdate [⟨"B", true⟩, ⟨"C", true⟩]).2 = ["B", "C"] :=
  ⟨by decide, by decide, by decide⟩

/-! ## C6: hourly analytics roll-up -/

lemma le_foldMax {α : Type} [LinearOrder α] (xs : List α) :
    ∀ (x y : α), y ∈ x :: xs → y ≤ foldMax x xs := by
  induction xs with
  | nil =>
    intro x y hy
    rw [List.mem_singleton] at hy
    subst hy
    exact le_rfl
  | cons z zs ih =>
    intro x y hy
    show y ≤ foldMax (max x z) zs
    rcases List.mem_cons.mp hy with h | h
    · subst h
      exact le_trans (le_max_left y z)
        (ih (max y z) (max y z) (List.mem_cons_self _ _))
    · rcases List.mem_cons.mp h with h2 | h2
      · subst h2
        exact le_trans (le_max_right x y)
          (ih (max x y) (max x y) (List.mem_cons_self _ _))
      · exact ih (max x z) y (List.mem_cons_of_mem _ h2)

lemma foldMax_mem {α : Type} [LinearOrder α] (xs : List α) :
    ∀ x : α, foldMax x xs ∈ x :: xs := by
  induction xs with
  | nil => intro x; exact List.mem_singleton_self x
  | cons z zs ih =>
    intro x
    show foldMax (max x z) zs ∈ x :: z :: zs
    rcases List.mem_cons.mp (ih (max x z)) with h1 | h1
    · rw [h1]
      rcases max_choice x z with hm | hm <;> rw [hm]
      · exact List.mem_cons_self _ _
      · exact List.mem_cons_of_mem _ (List.mem_cons_self _ _)
    · exact List.mem_cons_of_mem _ (List.mem_cons_of_mem _ h1)

lemma foldMin_le {α : Type} [LinearOrder α] (xs : List α) :
    ∀ (x y : α), y ∈ x :: xs → foldMin x xs ≤ y := by
  induction xs with
  | nil =>
    intro x y hy
    rw [List.mem_singleton] at hy
    subst hy
    exact le_rfl
  | cons z zs ih =>
    intro x y hy
    show foldMin (min x z) zs ≤ y
    rcases List.mem_cons.mp hy with h | h
    · subst h
      exact le_trans (ih (min y z) (min y z) (List.mem_cons_self _ _))
        (min_le_left y z)
    · rcases List.mem_cons.mp h with h2 | h2
      · subst h2
        exact le_trans (ih (min x y) (min x y) (List.mem_cons_self _ _))
          (min_le_right x y)
      · exact ih (min x z) y (List.mem_cons_of_mem _ h2)

lemma foldMin_mem {α : Type} [LinearOrder α] (xs : List α) :
    ∀ x : α, foldMin x xs ∈ x :: xs := by
  induction xs with
  | nil => intro x; exact List.mem_singleton_self x
  | cons z zs ih =>
    intro x
    show foldMin (min x z) zs ∈ x :: z :: zs
    rcases List.mem_cons.mp (ih (min x z)) with h1 | h1
    · rw [h1]
      rcases min_choice x z with hm | hm <;> rw [hm]
      · exact List.mem_cons_self _ _
      · exact List.mem_cons_of_mem _ (List.mem_cons_self _ _)
    · exact List.mem_cons_of_mem _ (List.mem_cons_of_mem _ h1)

lemma sumI_eq_sum (l : List ℤ) : sumI l = l.sum :=
  (List.sum_eq_foldl).symm

lemma sumQ_eq_sum (l : List ℚ) : sumQ l = l.sum :=
  (List.sum_eq_foldl).symm

lemma foldl_add_eq_sum {α β : Type} [AddCommMonoid α] (f : β → α) :
    ∀ (l : List β) (init : α),
      l.foldl (fun s h => s + f h) init = init + (l.map f).sum := by
  intro l
  induction l with
  | nil => intro init; simp
  | cons x xs ih => intro init; simp [ih, add_assoc]

/-- Evaluation of `calculateHourlyAnalytics` on a non-empty window, with the window
spelled out. -/
lemma calc_analytics_of_window (nowMs : ℤ) (history : List HistPoint)
    (x : HistPoint) (xs : List HistPoint)
    (h : hourWindow nowMs history = x :: xs) :
    calculateHourlyAnalytics nowMs history = some
      { hour := nowMs
        grid :=
          { avg := jsRound ((sumI ((x :: xs).map (·.grid)) : ℚ) /
              (((x :: xs).length : ℕ) : ℚ))
            max := foldMax x.grid (xs.map (·.grid))
            min := foldMin x.grid (xs.map (·.grid))
            samples := (x :: xs).length }
        solar :=
          { avg := jsRound ((sumI ((x :: xs).map (·.solar)) : ℚ) /
              (((x :: xs).length : ℕ) : ℚ))
            max := foldMax x.solar (xs.map (·.solar))
            min := foldMin x.solar (xs.map (·.solar))
            total := (x :: xs).foldl
              (fun s h => s + ((h.solar : ℚ) / 3600 / 1000)) 0 }
        load :=
          { avg := jsRound ((sumI ((x :: xs).map (·.load)) : ℚ) /
              (((x :: xs).length : ℕ) : ℚ))
            max := foldMax x.load (xs.map (·.load))
            min := foldMin x.load (xs.map (·.load))
            total := (x :: xs).foldl
              (fun s h => s + ((h.load : ℚ) / 3600 / 1000)) 0 }
        battery :=
          { avgSoe := jsRound (sumQ ((x :: xs).map (·.soe)) /
              (((x :: xs).length : ℕ) : ℚ))
            maxSoe := foldMax x.soe (xs.map (·.soe))
            minSoe := foldMin x.soe (xs.map (·.soe)) } } := by
  rw [calculateHourlyAnalytics, h]

/-- C6: the hourly roll-up over the window `(now − 1h, now]` produces no
entry and no broadcast when the window is empty; otherwise it appends and
broadcasts one entry whose per-channel rounded averages, maxima, minima
(and SoE statistics) are over exactly the samples of the window (each maximum /
minimum is attained by a window sample and bounds all of them) and whose
solar and load totals are `Σ (power_w / 3600 / 1000)` over the window. -/
theorem analytics_rollup_spec (nowMs : ℤ) (history : List HistPoint)
    (analytics0 : List AnalyticsEntry) :
    (hourWindow nowMs history = [] →
      calculateHourlyAnalytics nowMs history = none ∧
      analyticsTick nowMs history analytics0 = (analytics0, [])) ∧
    (∀ x xs, hourWindow nowMs history = x :: xs →
      ∃ e, calculateHourlyAnalytics nowMs history = some e ∧
        analyticsTick nowMs history analytics0 =
          (sliceLast 720 (analytics0 ++ [e]), [Event.analytics e]) ∧
        e.grid.samples = (x :: xs).length ∧
        e.grid.avg = jsRound ((((x :: xs).map (·.grid)).sum : ℚ) /
          (((x :: xs).length : ℕ) : ℚ)) ∧
        e.solar.avg = jsRound ((((x :: xs).map (·.solar)).sum : ℚ) /
          (((x :: xs).length : ℕ) : ℚ)) ∧
        e.load.avg = jsRound ((((x :: xs).map (·.load)).sum : ℚ) /
          (((x :: xs).length : ℕ) : ℚ)) ∧
        e.battery.avgSoe = jsRound ((((x :: xs).map (·.soe)).sum) /
          (((x :: xs).length : ℕ) : ℚ)) ∧
        e.solar.total =
          ((x :: xs).map (fun h => (h.solar : ℚ) / 3600 / 1000)).sum ∧
        e.load.total =
          ((x :: xs).map (fun h => (h.load : ℚ) / 3600 / 1000)).sum ∧
        (∀ h ∈ x :: xs,
          h.grid ≤ e.grid.max ∧ e.grid.min ≤ h.grid ∧
          h.solar ≤ e.solar.max ∧ e.solar.min ≤ h.solar ∧
          h.load ≤ e.load.max ∧ e.load.min ≤ h.load ∧
          h.soe ≤ e.battery.maxSoe ∧ e.battery.minSoe ≤ h.soe) ∧
        e.grid.max ∈ (x :: xs).map (·.grid) ∧
        e.grid.min ∈ (x :: xs).map (·.grid) ∧
        e.solar.max ∈ (x :: xs).map (·.solar) ∧
        e.solar.min ∈ (x :: xs).map (·.solar) ∧
        e.load.max ∈ (x :: xs).map (·.load) ∧
        e.load.min ∈ (x :: xs).map (·.load) ∧
        e.battery.maxSoe ∈ (x :: xs).map (·.soe) ∧
        e.battery.minSoe ∈ (x :: xs).map (·.soe)) := by
  constructor
  · intro h
    have hc : calculateHourlyAnalytics nowMs history = none := by
      rw [calculateHourlyAnalytics, h]
    exact ⟨hc, by rw [analyticsTick, hc]⟩
  · intro x xs h
    have hc := calc_analytics_of_window nowMs history x xs h
    refine ⟨_, hc, by rw [analyticsTick, hc], rfl, ?_, ?_, ?_, ?_, ?_, ?_,
      ?_, ?_, ?_, ?_, ?_, ?_, ?_, ?_, ?_⟩
    · show jsRound ((sumI ((x :: xs).map (·.grid)) : ℚ) / _) = _
      rw [sumI_eq_sum, Int.cast_list_sum, List.map_map]
      rfl
    · show jsRound ((sumI ((x :: xs).map (·.solar)) : ℚ) / _) = _
      rw [sumI_eq_sum, Int.cast_list_sum, List.map_map]
      rfl
    · show jsRound ((sumI ((x :: xs).map (·.load)) : ℚ) / _) = _
      rw [sumI_eq_sum, Int.cast_list_sum, List.map_map]
      rfl
    · show jsRound ((sumQ ((x :: xs).map (·.soe))) / _) = _
      rw [sumQ_eq_sum]
    · show (x :: xs).foldl (fun s h => s + ((h.solar : ℚ) / 3600 / 1000)) 0 = _
      rw [foldl_add_eq_sum, zero_add]
    · show (x :: xs).foldl (fun s h => s + ((h.load : ℚ) / 3600 / 1000)) 0 = _
      rw [foldl_add_eq_sum, zero_add]
    · intro p hp
      have hg : p.grid ∈ x.grid :: xs.map (·.grid) := by
        rcases List.mem_cons.mp hp with rfl | hp'
        · exact List.mem_cons_self _ _
        · exact List.mem_cons_of_mem _ (List.mem_map_of_mem _ hp')
      have hs : p.solar ∈ x.solar :: xs.map (·.solar) := by
        rcases List.mem_cons.mp hp with rfl | hp'
        · exact List.mem_cons_self _ _
        · exact List.mem_cons_of_mem _ (List.mem_map_of_mem _ hp')
      have hl : p.load ∈ x.load :: xs.map (·.load) := by
        rcases List.mem_cons.mp hp with rfl | hp'
        · exact List.mem_cons_self _ _
        · exact List.mem_cons_of_mem _ (List.mem_map_of_mem _ hp')
      have hsoe : p.soe ∈ x.soe :: xs.map (·.soe) := by
        rcases List.mem_cons.mp hp with rfl | hp'
        · exact List.mem_cons_self _ _
        · exact List.mem_cons_of_mem _ (List.mem_map_of_mem _ hp')
      exact ⟨le_foldMax _ _ _ hg, foldMin_le _ _ _ hg,
        le_foldMax _ _ _ hs, foldMin_le _ _ _ hs,
        le_foldMax _ _ _ hl, foldMin_le _ _ _ hl,
        le_foldMax _ _ _ hsoe, foldMin_le _ _ _ hsoe⟩
    · exact foldMax_mem _ _
    · exact foldMin_mem _ _
    · exact foldMax_mem _ _
    · exact foldMin_mem _ _
    · exact foldMax_mem _ _
    · exact foldMin_mem _ _
    · exact foldMax_mem _ _
    · exact foldMin_mem _ _

/-- Witness for C6: an empty window produces nothing; a singleton window
produces exactly one appended and broadcast entry. -/
theorem analytics_rollup_spec_witness :
    hourWindow 0 [] = ([] : List HistPoint) ∧
    calculateHourlyAnalytics 0 [] = none ∧
    analyticsTick 0 [] [] = ([], []) ∧
    hourWindow 7200000 [⟨7000000, 100, 0, 300, 400, 50⟩] =
      [⟨7000000, 100, 0, 300, 400, 50⟩] ∧
    (∃ e, calculateHourlyAnalytics 7200000
        [⟨7000000, 100, 0, 300, 400, 50⟩] = some e ∧
      analyticsTick 7200000 [⟨7000000, 100, 0, 300, 400, 50⟩] [] =
        (sliceLast 720 ([] ++ [e]), [Event.analytics e])) := by
  have h1 := (analytics_rollup_spec 0 [] []).1 rfl
  have hw : hourWindow 7200000 [⟨7000000, 100, 0, 300, 400, 50⟩] =
      [⟨7000000, 100, 0, 300, 400, 50⟩] := rfl
  obtain ⟨e, he1, he2, _⟩ :=
    (analytics_rollup_spec 7200000 [⟨7000000, 100, 0, 300, 400, 50⟩] []).2
      ⟨7000000, 100, 0, 300, 400, 50⟩ [] hw
  exact ⟨rfl, h1.1, h1.2, hw, e, he1, he2⟩

/-! ## C9: transient fetch failure yields no update -/

/-- C9: on a transient fetch failure (`fetchPowerwallData()` returned
`null`) the on-demand route answers an explicit error and leaves the whole
state — cache, history, samples, alerts — untouched with nothing broadcast;
the SSE tick does nothing; and the previously cached reading remains what a
fresh-window on-demand query returns. Nothing is fatal: both functions
return normally. -/
theorem transient_fetch_failure_no_update (nowMs : ℤ) (st : ServerState)
    (sw : Bool) (n : ℕ) :
    (cacheFresh nowMs st = none →
      apiPowerwallGet nowMs none sw st = (st, ApiResponse.error500, [])) ∧
    ssePollTick nowMs n none sw st = (st, []) ∧
    (∀ (fr : Option PowerwallData) (pw : PowerwallData),
      cacheFresh nowMs st = some pw →
      apiPowerwallGet nowMs fr sw st = (st, ApiResponse.json pw, [])) := by
  refine ⟨fun h => ?_, ?_, fun fr pw h => ?_⟩
  · rw [apiPowerwallGet.eq_def, h]
  · rw [ssePollTick]
    split <;> rfl
  · rw [apiPowerwallGet.eq_def, h]

/-- Witness for C9 on an empty cache and on a fresh cache. -/
theorem transient_fetch_failure_no_update_witness :
    cacheFresh 1000 ⟨none, 0, [], [], [], [], none,
      ⟨20, 95, false, 5000, 85, 50⟩⟩ = none ∧
    apiPowerwallGet 1000 none false ⟨none, 0, [], [], [], [], none,
      ⟨20, 95, false, 5000, 85, 50⟩⟩ =
      (⟨none, 0, [], [], [], [], none, ⟨20, 95, false, 5000, 85, 50⟩⟩,
       ApiResponse.error500, []) ∧
    ssePollTick 1000 3 none false ⟨none, 0, [], [], [], [], none,
      ⟨20, 95, false, 5000, 85, 50⟩⟩ =
      (⟨none, 0, [], [], [], [], none, ⟨20, 95, false, 5000, 85, 50⟩⟩, []) ∧
    cacheFresh 1000 ⟨some ⟨900, 300, 0, 500, 400, 50, "standby"⟩, 900,
      [], [], [], [], none, ⟨20, 95, false, 5000, 85, 50⟩⟩ =
      some ⟨900, 300, 0, 500, 400, 50, "standby"⟩ ∧
    apiPowerwallGet 1000 none false
      ⟨some ⟨900, 300, 0, 500, 400, 50, "standby"⟩, 900,
       [], [], [], [], none, ⟨20, 95, false, 5000, 85, 50⟩⟩ =
      (⟨some ⟨900, 300, 0, 500, 400, 50, "standby"⟩, 900,
        [], [], [], [], none, ⟨20, 95, false, 5000, 85, 50⟩⟩,
       ApiResponse.json ⟨900, 300, 0, 500, 400, 50, "standby"⟩, []) := by
  have h1 := transient_fetch_failure_no_update 1000
    ⟨none, 0, [], [], [], [], none, ⟨20, 95, false, 5000, 85, 50⟩⟩ false 3
  have h2 := transient_fetch_failure_no_update 1000
    ⟨some ⟨900, 300, 0, 500, 400, 50, "standby"⟩, 900, [], [], [], [],
     none, ⟨20, 95, false, 5000, 85, 50⟩⟩ false 3
  exact ⟨rfl, h1.1 rfl, h1.2.1, rfl,
    h2.2.2 none ⟨900, 300, 0, 500, 400, 50, "standby"⟩ rfl⟩

/-! ## C8: a failing durable sample write does not abort the pipeline -/

/-- C8: when the SQLite sample insert throws, the poll pipelines (SSE tick
with at least one subscriber; GET route past a stale cache) still evaluate
alerts and still hand the reading to the broadcast: the broadcast event
lists and resulting alert lists are identical to a run whose write
succeeds, the powerwall event is among the broadcasts, only the samples
table is left unchanged, and the route still answers the fresh reading. -/
theorem sample_write_failure_pipeline_continues (nowMs : ℤ)
    (pw : PowerwallData) (st : ServerState) (n : ℕ) (hn : 0 < n)
    (hstale : cacheFresh nowMs st = none) :
    (ssePollTick nowMs n (some pw) true st).2 =
      (ssePollTick nowMs n (some pw) false st).2 ∧
    ((ssePollTick nowMs n (some pw) true st).1).alerts =
      ((ssePollTick nowMs n (some pw) false st).1).alerts ∧
    Event.powerwall pw ∈ (ssePollTick nowMs n (some pw) true st).2 ∧
    ((ssePollTick nowMs n (some pw) true st).1).samples = st.samples ∧
    (apiPowerwallGet nowMs (some pw) true st).2.2 =
      (apiPowerwallGet nowMs (some pw) false st).2.2 ∧
    Event.powerwall pw ∈ (apiPowerwallGet nowMs (some pw) true st).2.2 ∧
    ((apiPowerwallGet nowMs (some pw) true st).1).alerts =
      ((apiPowerwallGet nowMs (some pw) false st).1).alerts ∧
    ((apiPowerwallGet nowMs (some pw) true st).1).samples = st.samples ∧
    (apiPowerwallGet nowMs (some pw) true st).2.1 = ApiResponse.json pw := by
  have hT : ∀ b, ssePollTick nowMs n (some pw) b st =
      pipelineAfterFetch nowMs pw b { st with cachedPowerwall := some pw } := by
    intro b
    rw [ssePollTick, if_pos hn]
  have hG : ∀ b, apiPowerwallGet nowMs (some pw) b st =
      ((pipelineAfterFetch nowMs pw b
          { st with cachedPowerwall := some pw,
                    lastUpdatePowerwall := nowMs }).1,
       ApiResponse.json pw,
       (pipelineAfterFetch nowMs pw b
          { st with cachedPowerwall := some pw,
                    lastUpdatePowerwall := nowMs }).2) := by
    intro b
    rw [apiPowerwallGet.eq_def, hstale]
  refine ⟨?_, ?_, ?_, ?_, ?_, ?_, ?_, ?_, ?_⟩
  · rw [hT true, hT false]
    rfl
  · rw [hT true, hT false]
    rfl
  · rw [hT true]
    show Event.powerwall pw ∈ _ ++ [Event.powerwall pw]
    exact List.mem_append_right _ (List.mem_singleton_self _)
  · rw [hT true]
    rfl
  · rw [hG true, hG false]
    rfl
  · rw [hG true]
    show Event.powerwall pw ∈ _ ++ [Event.powerwall pw]
    exact List.mem_append_right _ (List.mem_singleton_self _)
  · rw [hG true, hG false]
    rfl
  · rw [hG true]
    rfl
  · rw [hG true]

/-- Witness for C8 on a concrete state with one subscriber and a stale
cache. -/
theorem sample_write_failure_pipeline_continues_witness :
    0 < 1 ∧
    cacheFresh 1000 ⟨none, 0, [], [], [], [], none,
      ⟨20, 95, false, 5000, 85, 50⟩⟩ = none ∧
    Event.powerwall ⟨1000, 300, 0, 500, 400, 50, "standby"⟩ ∈
      (ssePollTick 1000 1 (some ⟨1000, 300, 0, 500, 400, 50, "standby"⟩)
        true ⟨none, 0, [], [], [], [], none,
          ⟨20, 95, false, 5000, 85, 50⟩⟩).2 ∧
    ((ssePollTick 1000 1 (some ⟨1000, 300, 0, 500, 400, 50, "standby"⟩)
        true ⟨none, 0, [], [], [], [], none,
          ⟨20, 95, false, 5000, 85, 50⟩⟩).1).samples = [] ∧
    (apiPowerwallGet 1000 (some ⟨1000, 300, 0, 500, 400, 50, "standby"⟩)
        true ⟨none, 0, [], [], [], [], none,
          ⟨20, 95, false, 5000, 85, 50⟩⟩).2.1 =
      ApiResponse.json ⟨1000, 300, 0, 500, 400, 50, "standby"⟩ := by
  have h := sample_write_failure_pipeline_continues 1000
    ⟨1000, 300, 0, 500, 400, 50, "standby"⟩
    ⟨none, 0, [], [], [], [], none, ⟨20, 95, false, 5000, 85, 50⟩⟩
    1 (by norm_num) rfl
  exact ⟨by norm_num, rfl, h.2.2.1, h.2.2.2.1, h.2.2.2.2.2.2.2.2⟩

/-! ## C5: daily breakdown and daily self-powered percentage -/

/-- C5: with `dayLoad > 0`, the daily breakdown percentages are
`round(dayChannel / dayLoad · 100)`, the kWh fields render
`dayChannel / 1e6` to one decimal place, and the daily self-powered
percentage is the clamped rounded `(daySolar + dayBattery) / dayLoad ·
100`; with `dayLoad = 0` everything is zero and the instantaneous value is
kept. `daySolar = 500000` with `dayLoad = 800000` gives `solarKwh = "0.5"`
and `solarPct = 63`. -/
theorem dailyMetrics_spec (daySolar dayBattery dayGrid dayLoad : ℚ)
    (selfPct : ℤ) :
    (0 < dayLoad →
      dailyMetrics daySolar dayBattery dayGrid dayLoad selfPct =
        ({ solarPct := jsRound (daySolar / dayLoad * 100)
           batteryPct := jsRound (dayBattery / dayLoad * 100)
           gridPct := jsRound (dayGrid / dayLoad * 100)
           solarKwh := .str (toFixed1 (daySolar / 1000000))
           batteryKwh := .str (toFixed1 (dayBattery / 1000000))
           gridKwh := .str (toFixed1 (dayGrid / 1000000))
           loadKwh := .str (toFixed1 (dayLoad / 1000000)) },
         clamp0100 (jsRound ((daySolar + dayBattery) / dayLoad * 100)))) ∧
    (dayLoad = 0 →
      dailyMetrics daySolar dayBattery dayGrid dayLoad selfPct =
        ({ solarPct := 0, batteryPct := 0, gridPct := 0
           solarKwh := .num 0, batteryKwh := .num 0, gridKwh := .num 0
           loadKwh := .num 0 },
         selfPct)) ∧
    (daySolar = 500000 → dayLoad = 800000 →
      (dailyMetrics daySolar dayBattery dayGrid dayLoad selfPct).1.solarKwh =
        JSVal.str "0.5" ∧
      (dailyMetrics daySolar dayBattery dayGrid dayLoad selfPct).1.solarPct =
        63) := by
  refine ⟨fun h => ?_, fun h => ?_, fun h1 h2 => ?_⟩
  · rw [dailyMetrics, if_pos h]
  · rw [dailyMetrics, if_neg (by rw [h]; exact lt_irrefl 0)]
  · subst h1; subst h2
    rw [dailyMetrics, if_pos (by norm_num)]
    constructor
    · show JSVal.str (toFixed1 ((500000 : ℚ) / 1000000)) = JSVal.str "0.5"
      have h5 : jsRound (((500000 : ℚ) / 1000000) * 10) = 5 := by
        norm_num [jsRound]
      simp only [toFixed1, h5]
      rfl
    · show jsRound ((500000 : ℚ) / 800000 * 100) = 63
      norm_num [jsRound]

/-- Witness for C5 on the scenario values given in the spec. -/
theorem dailyMetrics_spec_witness :
    (dailyMetrics 500000 200000 300000 800000 7).1.solarKwh =
      JSVal.str "0.5" ∧
    (dailyMetrics 500000 200000 300000 800000 7).1.solarPct = 63 ∧
    (dailyMetrics 1 2 3 0 7).2 = 7 :=
  ⟨((dailyMetrics_spec 500000 200000 300000 800000 7).2.2 rfl rfl).1,
   ((dailyMetrics_spec 500000 200000 300000 800000 7).2.2 rfl rfl).2,
   by rw [(dailyMetrics_spec 1 2 3 0 7).2.1 rfl]⟩

/-- Witness for the amended C1 on a non-decreasing reading sequence. -/
theorem dayDelta_nonneg_and_monotone_witness :
    List.Chain' (· ≤ ·) [(200 : ℚ), 250, 300] ∧
    (∀ d ∈ dayDeltaSeq 100 [(200 : ℚ), 250, 300], 0 ≤ d) ∧
    List.Chain' (· ≤ ·) (dayDeltaSeq 100 [(200 : ℚ), 250, 300]) := by
  have hc : List.Chain' (· ≤ ·) [(200 : ℚ), 250, 300] := by
    simp only [List.chain'_cons, List.chain'_singleton, and_true]
    norm_num
  exact ⟨hc, (dayDelta_nonneg_and_monotone 100 [200, 250, 300]).1,
    (dayDelta_nonneg_and_monotone 100 [200, 250, 300]).2 hc⟩

end MarkMirror
